import Mathlib

/-!
Verification development for the object-identity and controlled-mutability
framework of the CCL repository (`pyccl/base/ccl_object.py`).

The module is shallowly embedded: the per-instance lock (`ObjectLock`), the
unlocking context manager (`UnlockInstance`), the decorator-time name check of
`unlock_instance`, the fancy-repr registry toggle (modelled by the boolean
`enabled` regime threaded through the representation reads), and the
`CCLObject` equality / representation / hash triple are all translated into
executable Lean functions over an explicit instance-state record.

Python's built-in string hash is external to the repository; it is kept as an
explicit parameter `pyHash : String → Int` of the definitions that use it, so
theorems quantify over it and concrete evaluations instantiate it.
-/

namespace CCL

/-- Embeds `ObjectLock` (ccl_object.py, lines 12-39): the per-instance lock
state, a mutability flag plus the id of the context manager currently holding
the instance.  Class-level defaults in the source are `_locked = False`,
`_lock_id = None`. -/
structure ObjectLock where
  _locked : Bool := false
  _lock_id : Option Nat := none
deriving Repr, DecidableEq

/-- `ObjectLock.locked` property. -/
def ObjectLock.locked (l : ObjectLock) : Bool := l._locked

/-- `ObjectLock.active` property: whether an unlocking context manager is
active (`self._lock_id is not None`). -/
def ObjectLock.active (l : ObjectLock) : Bool := l._lock_id.isSome

/-- `ObjectLock.lock`: `self._locked = True; self._lock_id = None`. -/
def ObjectLock.lock (_ : ObjectLock) : ObjectLock :=
  { _locked := true, _lock_id := none }

/-- `ObjectLock.unlock(manager_id=None)`: `self._locked = False`, and the
stored id is overwritten only when a manager id is passed. -/
def ObjectLock.unlock (l : ObjectLock) (manager_id : Option Nat) : ObjectLock :=
  { _locked := false
    _lock_id := match manager_id with
                | none => l._lock_id
                | some i => some i }

/-- Python exceptions surfaced by the embedded operations. -/
inductive CCLErr where
  | attributeError
  | typeError
  | notImplementedError
deriving Repr, DecidableEq

/-- The observable state of one `CCLObject` instance: its class identity
(`clsId` models `self.__class__` object identity, `clsName` its qualified
name), its own id (`objId` models `id(self)`, the basis of
`object.__repr__`), its attribute dictionary restricted to the domain fields
(integer-valued), its `_object_lock`, and the two `functools.cached_property`
slots `_repr` and `_hash` as optional cached values. -/
structure CCLInstance where
  clsId : Nat
  clsName : String
  objId : Nat
  fields : List (String × Int)
  _object_lock : ObjectLock
  _repr_cache : Option String
  _hash_cache : Option Int
deriving Repr, DecidableEq

/-- Attribute read (`attrgetter(attr)(self)` on a flat attribute); absent
attributes are rendered as `0` (the claims only evaluate attributes that the
constructor has set, as the repository's `conftest` checks enforce). -/
def getField (x : CCLInstance) (a : String) : Int :=
  (x.fields.lookup a).getD 0

/-- Attribute write into the instance dictionary. -/
def setF : List (String × Int) → String → Int → List (String × Int)
  | [], n, v => [(n, v)]
  | (k, w) :: rest, n, v =>
      if k = n then (n, v) :: rest else (k, w) :: setF rest n v

/-- `object.__repr__`: the default, identity-based representation, derived
from the opaque per-instance identity `objId`, never from field values. -/
def object_repr (x : CCLInstance) : String :=
  "<" ++ x.clsName ++ " object at " ++ toString x.objId ++ ">"

/-- Modelled from the spec: `build_string_from_attrs` lives in
`pyccl/base/repr_.py`, which is not present under `src/`; only its caller
`CCLAutoreprObject.__repr__` is.  Per spec §4.5 it renders, for each named
attribute in declared order, `name = value`, joined with the type's qualified
name as a header (concrete scenario: `"Point\n  a = 1\n  b = 2"`). -/
def build_string_from_attrs (x : CCLInstance) (attrs : List String) : String :=
  x.clsName ++ String.join (attrs.map fun a => "\n  " ++ a ++ " = " ++ toString (getField x a))

/-- `CCLAutoreprObject.__repr__` (ccl_object.py, lines 335-340): build the
string from `__repr_attrs__` if the class declares it, else fall back to
`object.__repr__`. -/
def ccl_autorepr (repr_attrs : Option (List String)) (x : CCLInstance) : String :=
  match repr_attrs with
  | some attrs => build_string_from_attrs x attrs
  | none => object_repr x

/-- Class-level data of a concrete `CCLObject` subtype: its qualified name,
whether some class in its definition chain declared a custom `__repr__` (and
was hence registered with `FancyRepr` by `__init_subclass__`), and the
optional `__repr_attrs__` / `__eq_attrs__` class variables. -/
structure CCLClass where
  name : String
  hasCustomRepr : Bool
  repr_attrs : Option (List String)
  eq_attrs : Option (List String)

/-- The value `repr(x)` evaluates to, without performing the cache update.
`enabled` is the `FancyRepr` regime: when a registered class is disabled,
`cls.__repr__` is `object.__repr__` (identity-based, cache ignored).
Otherwise `__repr__` is `__ccl_repr__`, which returns the cached `_repr`
slot, computing it from the class's custom `__repr__` body `crepr` (or from
`object.__repr__` for classes with no custom repr) on a cache miss. -/
def reprValue (enabled : Bool) (cls : CCLClass) (crepr : CCLInstance → String)
    (x : CCLInstance) : String :=
  if cls.hasCustomRepr && !enabled then object_repr x
  else
    match x._repr_cache with
    | some r => r
    | none => if cls.hasCustomRepr then crepr x else object_repr x

/-- The stateful read `repr(x)`: same value as `reprValue`, with the
`cached_property` slot `_repr` populated on a miss (and never populated on
the disabled path, which bypasses the cached property entirely). -/
def reprRead (enabled : Bool) (cls : CCLClass) (crepr : CCLInstance → String)
    (x : CCLInstance) : String × CCLInstance :=
  if cls.hasCustomRepr && !enabled then (object_repr x, x)
  else
    match x._repr_cache with
    | some r => (r, x)
    | none =>
        let v := if cls.hasCustomRepr then crepr x else object_repr x
        (v, { x with _repr_cache := some v })

/-- The value `hash(x)` evaluates to: the cached `_hash` slot if populated,
else `pyHash` of the current representation value
(`CCLObject._hash`, ccl_object.py lines 283-287). -/
def hashValue (pyHash : String → Int) (enabled : Bool) (cls : CCLClass)
    (crepr : CCLInstance → String) (x : CCLInstance) : Int :=
  match x._hash_cache with
  | some h => h
  | none => pyHash (reprValue enabled cls crepr x)

/-- The stateful read `hash(x)`: on a `_hash` miss, `hash(repr(self))` is
computed — which performs the `repr` read (possibly populating `_repr`) —
and the result is stored in `_hash`. -/
def hashRead (pyHash : String → Int) (enabled : Bool) (cls : CCLClass)
    (crepr : CCLInstance → String) (x : CCLInstance) : Int × CCLInstance :=
  match x._hash_cache with
  | some h => (h, x)
  | none =>
      let p := reprRead enabled cls crepr x
      let h := pyHash p.fst
      (h, { p.snd with _hash_cache := some h })

/-- `CCLObject.__eq__` (ccl_object.py, lines 299-308): `False` for distinct
concrete classes; per-attribute comparison over `__eq_attrs__` when declared;
otherwise representation-string comparison. -/
def ccl_eq (enabled : Bool) (cls : CCLClass) (crepr : CCLInstance → String)
    (x y : CCLInstance) : Bool :=
  if x.clsId ≠ y.clsId then false
  else
    match cls.eq_attrs with
    | some attrs => attrs.all fun a => getField x a == getField y a
    | none => reprValue enabled cls crepr x == reprValue enabled cls crepr y

/-- The cache-invalidation block of `UnlockInstance.__exit__` (ccl_object.py,
lines 92-98): `delattr(self.instance, "_repr")` and
`delattr(self.instance, "_hash")` inside a single `try`, whose
`AttributeError` handler passes.  Consequently, when the `_repr` slot is not
populated, the first `delattr` raises and the `_hash` deletion is skipped. -/
def clearCaches (x : CCLInstance) : CCLInstance :=
  match x._repr_cache with
  | none => x
  | some _ => { x with _repr_cache := none, _hash_cache := none }

/-- `UnlockInstance` (ccl_object.py, lines 42-101): the per-use context
manager.  `id` is `id(self)`, `mutate` the cache-invalidation flag, and
`check_instance` the stored result of `isinstance(instance, CCLObject)`. -/
structure UnlockInstance where
  id : Nat
  mutate : Bool
  check_instance : Bool
deriving Repr, DecidableEq

/-- `UnlockInstance.__enter__`: no-op for foreign values; no-op when another
context manager is already active on the instance; otherwise unlock and store
this manager's id. -/
def UnlockInstance.enter (u : UnlockInstance) (x : CCLInstance) : CCLInstance :=
  if !u.check_instance then x
  else if x._object_lock.active then x
  else { x with _object_lock := x._object_lock.unlock (some u.id) }

/-- `UnlockInstance.__exit__`: no-op for foreign values; no-op when this
manager's id is not the stored `_lock_id`; otherwise clear the caches when
`mutate` is set, then lock the instance. -/
def UnlockInstance.exit (u : UnlockInstance) (x : CCLInstance) : CCLInstance :=
  if !u.check_instance then x
  else if some u.id ≠ x._object_lock._lock_id then x
  else
    let x1 := if u.mutate then clearCaches x else x
    { x1 with _object_lock := x1._object_lock.lock }

/-- `CCLObject.__setattr__` (ccl_object.py, lines 268-272): raise
`AttributeError` while the instance is locked, else write the attribute. -/
def ccl_setattr (x : CCLInstance) (n : String) (v : Int) : Except CCLErr CCLInstance :=
  if x._object_lock.locked then .error .attributeError
  else .ok { x with fields := setF x.fields n v }

/-- A freshly allocated instance, as left by `CCLObject.__new__`
(ccl_object.py, lines 262-266): empty attribute dictionary, a fresh
`ObjectLock` with the class-level defaults (unlocked, no manager), and both
cached-property slots absent. -/
def freshInstance (clsId objId : Nat) (nm : String) : CCLInstance :=
  { clsId := clsId, clsName := nm, objId := objId, fields := []
    _object_lock := {}, _repr_cache := none, _hash_cache := none }

/-- The body of a constructor, as a sequence of `self.<n> = <v>` writes,
each routed through `CCLObject.__setattr__`; the first raised
`AttributeError` propagates. -/
def runInitWrites : CCLInstance → List (String × Int) → Except CCLErr CCLInstance
  | x, [] => .ok x
  | x, w :: ws =>
      match ccl_setattr x w.1 w.2 with
      | .ok y => runInitWrites y ws
      | .error e => .error e

/-- Construction of an instance of a concrete subtype.  `hasWrappedInit`
records whether `UnlockInstance.Funlock(cls, "__init__", mutate=False)` found
an `__init__` to wrap anywhere in the subtype's class dictionaries: `Funlock`
(ccl_object.py, lines 139-145) uses `vars(cl).get(name)`, so a subtype in
whose hierarchy no class below `object` defines `__init__` keeps the
unwrapped `object.__init__` (which performs no attribute writes).  When the
constructor is wrapped, the call runs inside
`UnlockInstance(self, mutate=False)` with a fresh manager id `uid`. -/
def construct (hasWrappedInit : Bool) (uid clsId objId : Nat) (nm : String)
    (writes : List (String × Int)) : Except CCLErr CCLInstance :=
  let x0 := freshInstance clsId objId nm
  if hasWrappedInit then
    let u : UnlockInstance := { id := uid, mutate := false, check_instance := true }
    match runInitWrites (u.enter x0) writes with
    | .ok x1 => .ok (u.exit x1)
    | .error e => .error e
  else
    runInitWrites x0 writes

/-- Failures of `UnlockInstance.unlock_instance` at decoration time. -/
inductive WrapErr where
  | nameError
  | indexError
deriving Repr, DecidableEq

/-- The decoration-time name resolution of `UnlockInstance.unlock_instance`
(ccl_object.py, lines 123-130): `names` are the parameter names of the
decorated function, `name` the optionally declared parameter to unlock.
`name = names[0] if name is None else name` (an `IndexError` for a function
with no parameters), then `if name not in names: raise NameError`.  On
success the resolved parameter name — the one whose bound argument the
wrapper will enclose in an `UnlockInstance` — is returned. -/
def unlock_instance_wrap (names : List String) (name : Option String) :
    Except WrapErr String :=
  match name, names with
  | none, [] => .error .indexError
  | none, n0 :: rest => if n0 ∈ n0 :: rest then .ok n0 else .error .nameError
  | some n, ns => if n ∈ ns then .ok n else .error .nameError

/-- Outcome of calling a (possibly wrapped) function: the binding of the
actual arguments failed (`TypeError`), the body raised, or the body
returned a value. -/
inductive CallResult (ε β : Type) where
  | bindErr : CallResult ε β
  | raised : ε → CallResult ε β
  | value : β → CallResult ε β
deriving DecidableEq

/-- Outcome of calling the unwrapped function body directly. -/
def rawResult {ε β : Type} (r : Except ε β) : CallResult ε β :=
  match r with
  | .ok v => .value v
  | .error e => .raised e

/-- The runtime `wrapper` produced by `unlock_instance` (ccl_object.py,
lines 132-137): bind the actual arguments (`binds` records whether
`func.__signature__.bind` succeeds; on failure a `TypeError` surfaces before
the body runs), then run the body inside
`with UnlockInstance(bound.arguments[name], mutate=mutate)`.  The `with`
statement runs `__exit__` on both the return and the raise path and, since
`__exit__` returns `None`, never suppresses an exception; the body's result
is passed through unchanged. -/
def wrappedCall {ε β : Type} (binds : Bool) (u : UnlockInstance)
    (body : CCLInstance → Except ε β × CCLInstance) (x : CCLInstance) :
    CallResult ε β × CCLInstance :=
  if binds then
    let p := body (u.enter x)
    (rawResult p.fst, u.exit p.snd)
  else (.bindErr, x)

/-!
Interleaving model for concurrent scope entry (`UnlockInstance.__enter__`,
ccl_object.py lines 67-79).  The critical section `with self.thread_lock:` is
guarded by `self.thread_lock = RLock()` created in `UnlockInstance.__init__`
(line 60) — a lock private to each context-manager object, not shared per
instance.  Two different scopes entering the same instance from different
threads therefore hold different locks, and their check-then-unlock sequences
interleave freely; only the program order within each scope is preserved.
Each scope's entry is split into its two atomic effects: reading
`object_lock.active`, and (when the reading observed an inactive lock)
calling `object_lock.unlock(manager_id=self.id)`.
-/

/-- Shared state of the race model: the instance's lock, plus what each of
the two competing scopes observed when it executed its `active` check
(`none` while the check has not run yet). -/
structure RaceState where
  lock : ObjectLock := {}
  obsA : Option Bool := none
  obsB : Option Bool := none
deriving Repr, DecidableEq

/-- Atomic actions of the two competing scope entries. -/
inductive RaceStep where
  | checkA
  | setA
  | checkB
  | setB
deriving Repr, DecidableEq

/-- One atomic action of scope A (manager id `a`) or scope B (manager id
`b`) against the shared state. -/
def raceStep (a b : Nat) (s : RaceState) : RaceStep → RaceState
  | .checkA => { s with obsA := some s.lock.active }
  | .setA => if s.obsA = some false then { s with lock := s.lock.unlock (some a) } else s
  | .checkB => { s with obsB := some s.lock.active }
  | .setB => if s.obsB = some false then { s with lock := s.lock.unlock (some b) } else s

/-- Run an interleaving of the two scope entries from the initial state
(fresh, inactive lock). -/
def runRace (a b : Nat) (steps : List RaceStep) : RaceState :=
  steps.foldl (raceStep a b) {}

/-!  Concrete material used by counterexamples, bug evaluations and
witnesses. -/

/-- A concrete stand-in for the built-in string hash (string length, as an
integer): total, computable, and — like any function from the unbounded
string domain into a bounded machine-integer range — non-injective. -/
def demoHash (s : String) : Int := s.length

/-- A hash function collapsing everything, modelling a hash collision: the
built-in hash maps the unboundedly many representation strings into 64-bit
integers, so distinct representations with equal hashes exist. -/
def constHash (_ : String) : Int := 0

/-- The class of spec §8's concrete scenario: `Point` with
`__repr_attrs__ = ("a", "b")` and no `__eq_attrs__`. -/
def pointCls : CCLClass := ⟨"Point", true, some ["a", "b"], none⟩

/-- The `__repr__` body `__init_subclass__` registers for `Point`:
`CCLAutoreprObject.__repr__` specialised to its `__repr_attrs__`. -/
def pointRepr : CCLInstance → String := ccl_autorepr (some ["a", "b"])

/-- `Point(a=1, b=2)` as left by construction (locked, caches empty). -/
def pX : CCLInstance := ⟨3, "Point", 1, [("a", 1), ("b", 2)], ⟨true, none⟩, none, none⟩

/-- `Point(a=1, b=3)` as left by construction (locked, caches empty). -/
def pY : CCLInstance := ⟨3, "Point", 2, [("a", 1), ("b", 3)], ⟨true, none⟩, none, none⟩

/-- The representation string of `pX` under the attribute-list strategy. -/
def pointStr : String := "Point\n  a = 1\n  b = 2"

/-- A `Point` whose representation and hash were both read (and hence
cached) while fancy representations were enabled. -/
def pCached : CCLInstance :=
  ⟨3, "Point", 3, [("a", 1), ("b", 2)], ⟨true, none⟩, some pointStr, some (demoHash pointStr)⟩

/-- The class `CCLAutoreprObject` itself: it defines `__repr__` in its class
body (so `__init_subclass__` registers it with `FancyRepr`), but declares no
`__repr_attrs__`, so its `__repr__` body falls back to `object.__repr__`. -/
def autoCls : CCLClass := ⟨"CCLAutoreprObject", true, none, none⟩

/-- A fresh instance of `CCLAutoreprObject` (no `__repr_attrs__`). -/
def zInst : CCLInstance := ⟨8, "CCLAutoreprObject", 5, [], ⟨true, none⟩, none, none⟩

/-- A registered class with a genuinely custom `__repr__` and one field
`p`, standing for the repository's parameterised types. -/
def cosmoCls : CCLClass := ⟨"Cosmology", true, none, none⟩

/-- The custom `__repr__` body of `cosmoCls`: renders the field `p`. -/
def cosmoRepr (x : CCLInstance) : String :=
  "Cosmology(p = " ++ toString (getField x "p") ++ ")"

/-- `Cosmology(p=1)` as left by its (wrapped) constructor. -/
def c4x0 : CCLInstance := ⟨1, "Cosmology", 42, [("p", 1)], ⟨true, none⟩, none, none⟩

/-- `c4x0` after `hash(x)` was computed while fancy representations were
disabled: `_hash` holds the hash of the identity-based representation, and
`_repr` is still absent (the disabled `__repr__` bypasses the cache). -/
def c4x1 : CCLInstance := { c4x0 with _hash_cache := some (demoHash (object_repr c4x0)) }

/-- The `mutate=True` scope opened on `c4x1`. -/
def c4u : UnlockInstance := ⟨9, true, true⟩

/-- `c4x1` inside that scope, after the write `self.p = 2`. -/
def c4x2 : CCLInstance :=
  { c4x1 with fields := [("p", 2)], _object_lock := ⟨false, some 9⟩ }

/-! ## Theorems -/

/-- A constructor body run on an unlocked instance never raises and leaves
the lock state untouched (`__setattr__` only reads the lock). -/
theorem runInitWrites_unlocked : ∀ (ws : List (String × Int)) (x : CCLInstance),
    x._object_lock._locked = false →
    ∃ y, runInitWrites x ws = Except.ok y ∧ y._object_lock = x._object_lock := by
  intro ws
  induction ws with
  | nil => exact fun x _ => ⟨x, rfl, rfl⟩
  | cons w ws ih =>
      intro x hx
      have hset : ccl_setattr x w.1 w.2
          = Except.ok { x with fields := setF x.fields w.1 w.2 } := by
        simp [ccl_setattr, ObjectLock.locked, hx]
      obtain ⟨y, hy, hl⟩ := ih { x with fields := setF x.fields w.1 w.2 } hx
      exact ⟨y, by simp [runInitWrites, hset, hy], hl⟩

/-- Claim C2 (amended): for a concrete subtype whose constructor is wrapped
by `Funlock` — i.e. some class in its hierarchy defines `__init__` —
construction runs the field writes inside a `mutate=False` scope and returns
the instance locked, with the manager id cleared, and every subsequent
attribute assignment outside a scope fails with `AttributeError`. -/
theorem construct_locks (uid clsId objId : Nat) (nm : String)
    (writes : List (String × Int)) :
    ∃ x, construct true uid clsId objId nm writes = Except.ok x ∧
      x._object_lock._locked = true ∧ x._object_lock._lock_id = none ∧
      ∀ n v, ccl_setattr x n v = Except.error CCLErr.attributeError := by
  obtain ⟨y, hy, hlock⟩ := runInitWrites_unlocked writes
      (UnlockInstance.enter ⟨uid, false, true⟩ (freshInstance clsId objId nm)) rfl
  have hl : y._object_lock = ⟨false, some uid⟩ := by rw [hlock]; rfl
  have hexit : (UnlockInstance.exit ⟨uid, false, true⟩ y)._object_lock
      = ⟨true, none⟩ := by
    simp [UnlockInstance.exit, hl, ObjectLock.lock]
  refine ⟨UnlockInstance.exit ⟨uid, false, true⟩ y, ?_, ?_, ?_, ?_⟩
  · simp [construct, hy]
  · rw [hexit]
  · rw [hexit]
  · intro n v
    simp [ccl_setattr, ObjectLock.locked, hexit]

/-- Claim C2 counterexample: a concrete subtype in whose hierarchy no class
defines `__init__` (such as `type("MyType", (ccl.CCLObject,), {"test": 0})`
from the repository's test suite) keeps the unwrapped `object.__init__`; its
construction never enters an unlock scope, so the fresh `ObjectLock`'s
class-level default `_locked = False` survives and a subsequent attribute
assignment outside any scope succeeds instead of raising. -/
theorem construct_no_init_unlocked :
    construct false 0 5 7 "MyType" [] = Except.ok (freshInstance 5 7 "MyType") ∧
    (freshInstance 5 7 "MyType")._object_lock._locked = false ∧
    ccl_setattr (freshInstance 5 7 "MyType") "test" 0
      = Except.ok { freshInstance 5 7 "MyType" with fields := [("test", 0)] } :=
  ⟨rfl, rfl, rfl⟩

/-- The cache-invalidation step of `__exit__` never touches the lock. -/
theorem clearCaches_object_lock (x : CCLInstance) :
    (clearCaches x)._object_lock = x._object_lock := by
  cases h : x._repr_cache <;> simp [clearCaches, h]

/-- Claim C3 (confirmed): with a scope `a` already holding an instance,
entering a second scope `b` on it is the identity on the instance state, the
inner scope's exit is also the identity (no early relock, no cache
clearing), the instance stays unlocked, and only the outer scope's exit
relocks it and clears the manager id. -/
theorem nested_scope_noop (a b : Nat) (mA mB : Bool) (x0 : CCLInstance)
    (hact : x0._object_lock.active = false) (hne : b ≠ a) :
    UnlockInstance.enter ⟨b, mB, true⟩ (UnlockInstance.enter ⟨a, mA, true⟩ x0)
      = UnlockInstance.enter ⟨a, mA, true⟩ x0 ∧
    UnlockInstance.exit ⟨b, mB, true⟩ (UnlockInstance.enter ⟨a, mA, true⟩ x0)
      = UnlockInstance.enter ⟨a, mA, true⟩ x0 ∧
    (UnlockInstance.enter ⟨a, mA, true⟩ x0)._object_lock._locked = false ∧
    (UnlockInstance.exit ⟨a, mA, true⟩
        (UnlockInstance.enter ⟨a, mA, true⟩ x0))._object_lock._locked = true ∧
    (UnlockInstance.exit ⟨a, mA, true⟩
        (UnlockInstance.enter ⟨a, mA, true⟩ x0))._object_lock._lock_id = none := by
  have henter : UnlockInstance.enter ⟨a, mA, true⟩ x0
      = { x0 with _object_lock := ⟨false, some a⟩ } := by
    simp [UnlockInstance.enter, hact, ObjectLock.unlock]
  refine ⟨?_, ?_, ?_, ?_, ?_⟩
  · rw [henter]
    simp [UnlockInstance.enter, ObjectLock.active]
  · rw [henter]
    simp [UnlockInstance.exit, hne]
  · rw [henter]
  · rw [henter]
    simp [UnlockInstance.exit, ObjectLock.lock, clearCaches_object_lock]
  · rw [henter]
    simp [UnlockInstance.exit, ObjectLock.lock, clearCaches_object_lock]

/-- Claim C3 witness at a concrete instance and scope ids. -/
theorem nested_scope_noop_witness :
    UnlockInstance.enter ⟨2, false, true⟩
        (UnlockInstance.enter ⟨1, true, true⟩ (freshInstance 0 0 "T"))
      = UnlockInstance.enter ⟨1, true, true⟩ (freshInstance 0 0 "T") ∧
    UnlockInstance.exit ⟨2, false, true⟩
        (UnlockInstance.enter ⟨1, true, true⟩ (freshInstance 0 0 "T"))
      = UnlockInstance.enter ⟨1, true, true⟩ (freshInstance 0 0 "T") ∧
    (UnlockInstance.enter ⟨1, true, true⟩
        (freshInstance 0 0 "T"))._object_lock._locked = false ∧
    (UnlockInstance.exit ⟨1, true, true⟩ (UnlockInstance.enter ⟨1, true, true⟩
        (freshInstance 0 0 "T")))._object_lock._locked = true ∧
    (UnlockInstance.exit ⟨1, true, true⟩ (UnlockInstance.enter ⟨1, true, true⟩
        (freshInstance 0 0 "T")))._object_lock._lock_id = none :=
  nested_scope_noop 1 2 true false (freshInstance 0 0 "T") rfl (by decide)

/-- Claim C5 (confirmed): `CCLObject.__eq__` returns `False` whenever the
two operands' concrete classes differ, regardless of fields, caches or the
representation regime. -/
theorem eq_across_types (enabled : Bool) (cls : CCLClass)
    (crepr : CCLInstance → String) (x y : CCLInstance)
    (h : x.clsId ≠ y.clsId) :
    ccl_eq enabled cls crepr x y = false := by
  simp [ccl_eq, h]

/-- Claim C5 witness: a `Point` and a `CCLAutoreprObject` with equal (empty
vs. arbitrary) field content are unequal. -/
theorem eq_across_types_witness :
    ccl_eq true pointCls pointRepr pX zInst = false :=
  eq_across_types true pointCls pointRepr pX zInst (by decide)

/-- Claim C7 (confirmed): at decoration time, a declared parameter name
absent from the function's parameters raises `NameError` before any wrapped
call is possible; a declared name that is present resolves to itself, and an
omitted name defaults to the first parameter. -/
theorem unlock_instance_name_check (names : List String) :
    (∀ n, n ∉ names →
        unlock_instance_wrap names (some n) = Except.error WrapErr.nameError) ∧
    (∀ n, n ∈ names → unlock_instance_wrap names (some n) = Except.ok n) ∧
    (∀ n0 rest, names = n0 :: rest →
        unlock_instance_wrap names none = Except.ok n0) := by
  refine ⟨?_, ?_, ?_⟩
  · intro n hn
    simp [unlock_instance_wrap, hn]
  · intro n hn
    simp [unlock_instance_wrap, hn]
  · intro n0 rest h
    subst h
    simp [unlock_instance_wrap]

/-- Claim C7 witness, on the parameter list of the repository's own test
function `func1(item, pk, a0=0, *, a1=None, a2)`. -/
theorem unlock_instance_name_check_witness :
    unlock_instance_wrap ["item", "pk", "a0", "a1", "a2"] (some "hello")
      = Except.error WrapErr.nameError ∧
    unlock_instance_wrap ["item", "pk", "a0", "a1", "a2"] (some "pk")
      = Except.ok "pk" ∧
    unlock_instance_wrap ["item", "pk", "a0", "a1", "a2"] none
      = Except.ok "item" :=
  ⟨(unlock_instance_name_check ["item", "pk", "a0", "a1", "a2"]).1 "hello" (by decide),
   (unlock_instance_name_check ["item", "pk", "a0", "a1", "a2"]).2.1 "pk" (by decide),
   (unlock_instance_name_check ["item", "pk", "a0", "a1", "a2"]).2.2 "item"
     ["pk", "a0", "a1", "a2"] rfl⟩

/-- Claim C1 (amended): for two instances of the same concrete
`CCLAutoreprObject` subtype with a declared attribute list and no equality
attribute list, observed with their hash caches not yet populated: equality
holds exactly when the representations are equal, and equal representations
give equal hashes.  The converse hash direction is dropped: it would require
the built-in string hash to be injective (see the counterexample). -/
theorem autorepr_eq_repr_hash (pyHash : String → Int) (cls : CCLClass)
    (attrs : List String) (x y : CCLInstance)
    (hea : cls.eq_attrs = none) (hid : x.clsId = y.clsId)
    (hx : x._hash_cache = none) (hy : y._hash_cache = none) :
    (ccl_eq true cls (ccl_autorepr (some attrs)) x y = true ↔
      reprValue true cls (ccl_autorepr (some attrs)) x
        = reprValue true cls (ccl_autorepr (some attrs)) y) ∧
    (reprValue true cls (ccl_autorepr (some attrs)) x
        = reprValue true cls (ccl_autorepr (some attrs)) y →
      hashValue pyHash true cls (ccl_autorepr (some attrs)) x
        = hashValue pyHash true cls (ccl_autorepr (some attrs)) y) := by
  constructor
  · simp [ccl_eq, hid, hea]
  · intro hre
    simp [hashValue, hx, hy, hre]

/-- Claim C1 witness at `Point(a=1, b=2)` and `Point(a=1, b=3)`. -/
theorem autorepr_eq_repr_hash_witness :
    ((ccl_eq true pointCls (ccl_autorepr (some ["a", "b"])) pX pY = true ↔
      reprValue true pointCls (ccl_autorepr (some ["a", "b"])) pX
        = reprValue true pointCls (ccl_autorepr (some ["a", "b"])) pY) ∧
    (reprValue true pointCls (ccl_autorepr (some ["a", "b"])) pX
        = reprValue true pointCls (ccl_autorepr (some ["a", "b"])) pY →
      hashValue demoHash true pointCls (ccl_autorepr (some ["a", "b"])) pX
        = hashValue demoHash true pointCls (ccl_autorepr (some ["a", "b"])) pY)) :=
  autorepr_eq_repr_hash demoHash pointCls ["a", "b"] pX pY rfl rfl rfl rfl

/-- Claim C1 counterexample: `hash(x)` is the built-in hash of the
representation string; that hash maps the unboundedly many representation
strings into bounded machine integers, so it admits collisions and the
embedding keeps it as a parameter.  Under a colliding hash, `Point(a=1, b=2)`
and `Point(a=1, b=3)` have equal hashes while their representations (and so
equality) differ — refuting the claimed biconditional
`repr(x) == repr(y) ⇔ hash(x) == hash(y)`. -/
theorem hash_collision_breaks_equivalence :
    hashValue constHash true pointCls pointRepr pX
      = hashValue constHash true pointCls pointRepr pY ∧
    reprValue true pointCls pointRepr pX ≠ reprValue true pointCls pointRepr pY ∧
    ccl_eq true pointCls pointRepr pX pY = false := by
  refine ⟨rfl, by decide, by decide⟩

/-- Claim C4 (code bug evaluation): `Cosmology(p=1)` is hashed while fancy
representations are disabled, so `_hash` is cached from the identity-based
representation while `_repr` stays absent.  A `mutate=True` scope then
commits the write `p = 2` and exits: because `__exit__` deletes `_repr` and
`_hash` inside one `try`/`except AttributeError`, the failing `_repr`
deletion skips the `_hash` deletion, and the stale cached hash survives the
committed mutation — once representations are re-enabled, `hash(x)` disagrees
with the hash of `repr(x)`. -/
theorem mutate_exit_stale_hash :
    construct true 5 1 42 "Cosmology" [("p", 1)] = Except.ok c4x0 ∧
    hashRead demoHash false cosmoCls cosmoRepr c4x0
      = (demoHash (object_repr c4x0), c4x1) ∧
    c4x1._repr_cache = none ∧
    ccl_setattr (UnlockInstance.enter c4u c4x1) "p" 2 = Except.ok c4x2 ∧
    (UnlockInstance.exit c4u c4x2)._hash_cache
      = some (demoHash (object_repr c4x0)) ∧
    (UnlockInstance.exit c4u c4x2)._object_lock._locked = true ∧
    (hashRead demoHash true cosmoCls cosmoRepr (UnlockInstance.exit c4u c4x2)).fst
      ≠ demoHash ((reprRead true cosmoCls cosmoRepr
          (UnlockInstance.exit c4u c4x2)).fst) :=
  ⟨rfl, rfl, rfl, rfl, rfl, rfl, by decide⟩

/-- Claim C6 (amended): for every registered class, disabling the registry
makes `repr(x)` the identity-based default, bypassing the cache entirely —
hence it differs from the custom representation whenever the custom
representation's value differs from the identity default; re-enabling makes
`repr(x)` return the cached custom value again, recomputing and caching it
when the cache had been invalidated. -/
theorem fancy_repr_toggle (cls : CCLClass) (crepr : CCLInstance → String)
    (x : CCLInstance) (hreg : cls.hasCustomRepr = true) :
    reprRead false cls crepr x = (object_repr x, x) ∧
    (crepr x ≠ object_repr x → (reprRead false cls crepr x).fst ≠ crepr x) ∧
    (∀ r, x._repr_cache = some r → reprRead true cls crepr x = (r, x)) ∧
    (x._repr_cache = none →
      reprRead true cls crepr x
        = (crepr x, { x with _repr_cache := some (crepr x) })) := by
  refine ⟨?_, ?_, ?_, ?_⟩
  · simp [reprRead, hreg]
  · intro hne
    have hv : (reprRead false cls crepr x).fst = object_repr x := by
      simp [reprRead, hreg]
    rw [hv]
    exact fun h => hne h.symm
  · intro r hr
    simp [reprRead, hreg, hr]
  · intro hr
    simp [reprRead, hreg, hr]

/-- Claim C6 witness at `Cosmology(p=1)` with its genuinely custom
representation. -/
theorem fancy_repr_toggle_witness :
    reprRead false cosmoCls cosmoRepr c4x0 = (object_repr c4x0, c4x0) ∧
    reprRead true cosmoCls cosmoRepr c4x0
      = (cosmoRepr c4x0, { c4x0 with _repr_cache := some (cosmoRepr c4x0) }) :=
  ⟨(fancy_repr_toggle cosmoCls cosmoRepr c4x0 rfl).1,
   (fancy_repr_toggle cosmoCls cosmoRepr c4x0 rfl).2.2.2 rfl⟩

/-- Claim C6 counterexample: `CCLAutoreprObject` is itself registered (its
class body defines `__repr__`), but with no `__repr_attrs__` its custom
representation body falls back to `object.__repr__`; after `disable()`,
`repr(x)` equals that custom representation's value instead of differing
from it. -/
theorem disable_repr_equals_custom_default :
    (reprRead false autoCls (ccl_autorepr none) zInst).fst
      = ccl_autorepr none zInst :=
  rfl

/-- Claim C8 (code bug evaluation): the mutual-exclusion primitive is
created per scope (`self.thread_lock = RLock()` in `UnlockInstance.__init__`),
not per instance, so the check-then-unlock sequences of two scopes entering
the same instance from different threads interleave freely.  In the
interleaving `A.check, B.check, A.set, B.set` both scopes observe an
inactive lock and both unlock: B's entry is not a no-op, it overwrites A's
manager id — two live mutation windows exist at once. -/
theorem concurrent_enter_race :
    (runRace 1 2 [.checkA, .checkB, .setA, .setB]).obsA = some false ∧
    (runRace 1 2 [.checkA, .checkB, .setA, .setB]).obsB = some false ∧
    (runRace 1 2 [.checkA, .checkB, .setA, .setB]).lock._lock_id = some 2 ∧
    (runRace 1 2 [.checkA, .checkB, .setA, .setB]).lock._locked = false ∧
    (runRace 1 2 [.checkA, .checkB, .setA, .setB]).lock
      ≠ (runRace 1 2 [.checkA, .checkB, .setA]).lock := by
  refine ⟨rfl, rfl, rfl, rfl, by decide⟩

/-- Claim C9 (confirmed): once the actual arguments bind to the wrapped
function's signature, the wrapper returns exactly the body's outcome — the
returned value is passed through unchanged and a raised exception propagates
(the scope exit runs on both paths and never suppresses it). -/
theorem wrapper_transparent {ε β : Type} (u : UnlockInstance)
    (body : CCLInstance → Except ε β × CCLInstance) (x : CCLInstance)
    (hres : ∀ s t, (body s).fst = (body t).fst) :
    (wrappedCall true u body x).fst = rawResult (body x).fst := by
  simp only [wrappedCall, if_pos]
  exact congrArg rawResult (hres _ _)

/-- Claim C9 witness: a body returning `7` is returned unchanged, and a body
raising `NotImplementedError` propagates it. -/
theorem wrapper_transparent_witness :
    (wrappedCall true c4u
        (fun s => ((Except.ok 7 : Except CCLErr Int), s)) pX).fst
      = CallResult.value 7 ∧
    (wrappedCall true c4u
        (fun s => ((Except.error CCLErr.notImplementedError : Except CCLErr Int), s))
        pX).fst
      = CallResult.raised CCLErr.notImplementedError :=
  ⟨wrapper_transparent c4u (fun s => (Except.ok 7, s)) pX (fun _ _ => rfl),
   wrapper_transparent c4u
     (fun s => (Except.error CCLErr.notImplementedError, s)) pX (fun _ _ => rfl)⟩

/-- Claim C10 (confirmed): the registry toggle touches only the class-level
representation strategy, so a populated `_hash` slot keeps answering `hash`
reads unchanged under either regime; a `mutate=True` scope exit whose
`_repr` slot is populated clears the cached hash; and concretely, a `Point`
hashed while enabled answers, after `disable()`, with a hash different from
the hash of its (now identity-based) representation. -/
theorem hash_cache_survives_toggle (pyHash : String → Int) (cls : CCLClass)
    (crepr : CCLInstance → String) (x : CCLInstance) (h : Int)
    (hc : x._hash_cache = some h) :
    hashRead pyHash true cls crepr x = (h, x) ∧
    hashRead pyHash false cls crepr x = (h, x) ∧
    (∀ u : UnlockInstance, u.check_instance = true → u.mutate = true →
        x._object_lock._lock_id = some u.id → x._repr_cache.isSome = true →
        (UnlockInstance.exit u x)._hash_cache = none) ∧
    (hashRead demoHash false pointCls pointRepr pCached).fst
      ≠ demoHash ((reprRead false pointCls pointRepr pCached).fst) := by
  refine ⟨?_, ?_, ?_, by decide⟩
  · simp [hashRead, hc]
  · simp [hashRead, hc]
  · intro u hchk hmut hid hrs
    obtain ⟨r, hr⟩ := Option.isSome_iff_exists.mp hrs
    simp [UnlockInstance.exit, hchk, hmut, hid, clearCaches, hr]

/-- Claim C10 witness at the cached `Point` instance. -/
theorem hash_cache_survives_toggle_witness :
    hashRead demoHash true pointCls pointRepr pCached
      = (demoHash pointStr, pCached) ∧
    hashRead demoHash false pointCls pointRepr pCached
      = (demoHash pointStr, pCached) :=
  ⟨(hash_cache_survives_toggle demoHash pointCls pointRepr pCached
      (demoHash pointStr) rfl).1,
   (hash_cache_survives_toggle demoHash pointCls pointRepr pCached
      (demoHash pointStr) rfl).2.1⟩

end CCL
